import Mathlib

/-!
Shallow embedding of the GM_Scan authentication gateway
(`auth_utils.py`, `auth_routes.py`, `document_routes.py`, `main.py`).

Modelling conventions:
* MongoDB collections are Lean lists in insertion order; `find_one` is
  `List.find?`, `update_one` updates the first matching element,
  `insert_one` appends and draws a fresh `_id` from a counter.
* `datetime.utcnow()` is an explicit `now : Nat` parameter (seconds).
* Cryptographic primitives (SHA-256, HMAC-SHA256) are modelled
  symbolically: a hash is the tagged input, a JWT signature is the signed
  payload paired with the signing key.  This is the standard perfect-hash /
  unforgeable-MAC abstraction.
* Randomness (`random.randint`, `secrets.token_urlsafe`) is passed in as a
  parameter by the caller.
* Outbound provider HTTP calls are modelled by a "world" record carrying
  the responses the provider endpoints would give for this request.
-/

/-- `os.getenv("PASSWORD_SALT", "default_salt")` — the salt used by
`hash_password` in `auth_utils.py`. -/
def PASSWORD_SALT : String := "default_salt"

/-- Symbolic value of a SHA-256 digest: the digest of distinct inputs is
distinct (perfect-hash abstraction). -/
inductive HashVal where
  | sha256 (input : String)
deriving DecidableEq, Repr

/-- `auth_utils.hash_password`: SHA-256 of `password + salt`. -/
def hash_password (password : String) : HashVal :=
  .sha256 (password ++ PASSWORD_SALT)

/-- `auth_utils.generate_temp_password`: `str(random.randint(1000, 9999))`.
The random draw is modelled by a seed; the result ranges over the same
4-digit codes 1000–9999. -/
def generate_temp_password (seed : Nat) : String :=
  toString (1000 + seed % 9000)

/-- `config.SECRET_KEY`, the process-wide JWT signing key. -/
def SECRET_KEY : String := "SECRET_KEY"

/-- A claims map, as the (non-`exp`) payload dictionary handed to
`generate_access_token`.  The absolute expiry is kept as a separate
structured field of `JwtPayload` because `to_encode.update({"exp": expire})`
makes `exp` a reserved key that is always overwritten at issue time. -/
abbrev ClaimsMap := List (String × String)

/-- The payload of an issued JWT: the caller's claims plus the computed
absolute expiry (`exp`). -/
structure JwtPayload where
  claims : ClaimsMap
  exp : Nat
deriving DecidableEq, Repr

/-- Symbolic HMAC-SHA256 signature: determined by the signed payload and
the signing key, and unforgeable (distinct payload/key pairs give distinct
signatures). -/
structure Signature where
  signedPayload : JwtPayload
  key : String
deriving DecidableEq, Repr

/-- A string in access-token position.  `jws payload sig` is the compact
serialization `jwt.encode` produces; `raw s` is any other string (for
example an opaque provider-issued OAuth access token).  The two are
disjoint because third parties do not hold `SECRET_KEY`. -/
inductive TokenStr where
  | jws (payload : JwtPayload) (sig : Signature)
  | raw (s : String)
deriving DecidableEq, Repr

/-- `auth_utils.generate_access_token`: copies the claims, sets
`exp = utcnow() + expires_delta` (default `timedelta(days=1)` = 86400 s),
and signs with `SECRET_KEY` (HS256). -/
def generate_access_token (user_data : ClaimsMap) (now : Nat)
    (expires_delta : Option Nat) : TokenStr :=
  let delta := expires_delta.getD 86400
  let payload : JwtPayload := { claims := user_data, exp := now + delta }
  .jws payload { signedPayload := payload, key := SECRET_KEY }

/-- `auth_utils.verify_access_token`: `jwt.decode` checks the signature
first (failure → `InvalidTokenError`, surfaced as `ValueError "Invalid
token"`), then the `exp` claim (PyJWT treats the token as expired as soon
as `exp <= now`, surfaced as `ValueError "Token has expired"`); on success
it returns the decoded payload (claims plus `exp`). -/
def verify_access_token (token : TokenStr) (now : Nat) :
    Except String JwtPayload :=
  match token with
  | .jws payload sig =>
      if sig = { signedPayload := payload, key := SECRET_KEY } then
        if payload.exp ≤ now then .error "Token has expired"
        else .ok payload
      else .error "Invalid token"
  | .raw _ => .error "Invalid token"

/-- Tampering with a token: replacing the payload of a signed token while
keeping the original signature. -/
def tamper (token : TokenStr) (p : JwtPayload) : TokenStr :=
  match token with
  | .jws _ sig => .jws p sig
  | .raw s => .raw s

/-- A document of the `users` collection.  Fields that a Mongo document
may simply lack are `Option`s (`none` = field absent).  `uid` is the
`_id` (ObjectId modelled as a `Nat` drawn from the insertion counter). -/
structure UserRec where
  uid : Nat
  email : String
  password : HashVal
  first_name : Option String := none
  last_name : Option String := none
  mobile_number : Option String := none
  auth_provider : Option String := none
  linkedin_id : Option String := none
  facebook_id : Option String := none
  profile_picture : Option String := none
  temp_password : Option HashVal := none
  otp_expiration : Option Nat := none
deriving DecidableEq, Repr

/-- The `users` collection: documents in insertion order plus the next
fresh `_id`. -/
structure UsersDb where
  users : List UserRec
  nextId : Nat
deriving DecidableEq, Repr

/-- Mongo `update_one`: apply `f` to the first element satisfying `p`,
leave everything else unchanged. -/
def updateFirst (p : α → Bool) (f : α → α) : List α → List α
  | [] => []
  | u :: us => if p u then f u :: us else u :: updateFirst p f us

/-- An HTTP error response: `HTTPException(status_code, detail)`. -/
abbrev HttpError := Nat × String

/-- `models.LoginRequest`. -/
structure LoginRequest where
  email : String
  password : String
deriving DecidableEq, Repr

/-- `models.ResetPasswordRequest`. -/
structure ResetPasswordRequest where
  otp : String
  new_password : String
  confirm_password : String
deriving DecidableEq, Repr

/-- User summary object returned by login-style responses. -/
structure UserSummary where
  id : String
  first_name : Option String
  last_name : Option String
  email : String
deriving DecidableEq, Repr

/-- Body of a successful `/auth/login` response. -/
structure LoginResponse where
  access_token : TokenStr
  user : UserSummary
deriving DecidableEq, Repr

/-- `auth_routes.login_user` (`POST /auth/login`): find the user by email
(generic 400 on miss), compare salted hashes (same generic 400 on
mismatch), then issue an application token with `sub = str(_id)`. -/
def login_user (db : UsersDb) (now : Nat) (r : LoginRequest) :
    Except HttpError LoginResponse :=
  match db.users.find? (fun u => decide (u.email = r.email)) with
  | none => .error (400, "Invalid email or password")
  | some u =>
      if hash_password r.password ≠ u.password then
        .error (400, "Invalid email or password")
      else
        .ok { access_token :=
                generate_access_token
                  [("sub", toString u.uid), ("email", u.email)] now none,
              user := { id := toString u.uid, first_name := u.first_name,
                        last_name := u.last_name, email := u.email } }

/-- `auth_routes.forgot_password` (`POST /auth/forgot-password`): look the
user up by email (400 on miss), hash a fresh 4-digit code and store the
hash — and nothing else: no expiry field is written — then email the
plaintext code.  The generated plaintext is returned here in place of the
side-effecting `send_email` call. -/
def forgot_password (db : UsersDb) (email : String) (seed : Nat) :
    (Except HttpError String) × UsersDb × Option String :=
  match db.users.find? (fun u => decide (u.email = email)) with
  | none => (.error (400, "Email not found"), db, none)
  | some _ =>
      let temp_password := generate_temp_password seed
      let hashed := hash_password temp_password
      let db' := { db with
        users := updateFirst (fun u => decide (u.email = email))
          (fun u => { u with temp_password := some hashed }) db.users }
      (.ok "Temporary password sent to your email", db', some temp_password)

/-- `auth_routes.reset_password` (`POST /auth/reset-password`): reject a
mismatched confirmation before touching the store, look up **any** user
whose stored `temp_password` hash matches the hash of the presented code
(no time check — the handler takes no clock at all), then in a single
`update_one` set the new password hash and `$unset` the `temp_password`
field of that user. -/
def reset_password (db : UsersDb) (r : ResetPasswordRequest) :
    (Except HttpError String) × UsersDb :=
  if r.new_password ≠ r.confirm_password then
    (.error (400, "Passwords do not match"), db)
  else
    match db.users.find?
        (fun u => decide (u.temp_password = some (hash_password r.otp))) with
    | none => (.error (400, "Invalid OTP"), db)
    | some u =>
        let db' := { db with
          users := updateFirst (fun v => decide (v.uid = u.uid))
            (fun v => { v with password := hash_password r.new_password,
                               temp_password := none }) db.users }
        (.ok "Password reset successfully", db')

/-- `auth_utils.generate_otp` — defined in the repository but **not called
by any route**: stores the hashed code together with
`otp_expiration = utcnow() + 15 minutes`. -/
def generate_otp (db : UsersDb) (email : String) (now : Nat) (seed : Nat) :
    String × UsersDb :=
  let otp := generate_temp_password seed
  let hashed := hash_password otp
  let expiration := now + 15 * 60
  (otp, { db with
    users := updateFirst (fun u => decide (u.email = email))
      (fun u => { u with temp_password := some hashed,
                         otp_expiration := some expiration }) db.users })

/-- `auth_utils.verify_otp` — defined in the repository but **not called
by any route**: true only if a pending hash and expiry exist, the current
time is not past the expiry, and the candidate's hash matches. -/
def verify_otp (db : UsersDb) (email : String) (otp : String) (now : Nat) :
    Bool :=
  match db.users.find? (fun u => decide (u.email = email)) with
  | none => false
  | some u =>
      match u.temp_password, u.otp_expiration with
      | some tp, some exp => if now > exp then false
                             else decide (hash_password otp = tp)
      | _, _ => false

/-- The four optional patch slots of `PUT /auth/profiles`
(`models.UserCreate` as used by `update_profile`; `password` is never read
by the handler). -/
structure ProfilePatch where
  first_name : Option String := none
  last_name : Option String := none
  email : Option String := none
  mobile_number : Option String := none
deriving DecidableEq, Repr

/-- Apply the non-absent slots of a patch to a user record (Mongo
`$set update_fields`). -/
def applyPatch (p : ProfilePatch) (u : UserRec) : UserRec :=
  let u := match p.first_name with
           | some v => { u with first_name := some v } | none => u
  let u := match p.last_name with
           | some v => { u with last_name := some v } | none => u
  let u := match p.email with
           | some v => { u with email := v } | none => u
  match p.mobile_number with
  | some v => { u with mobile_number := some v } | none => u

/-- Body of `auth_routes.update_profile` inside its `try` block: empty
patch → 400 "No update fields provided"; `update_one` by `_id` with
`modified_count == 0` (no match, or values already identical) → 400
"No changes made to profile"; otherwise apply the patch and succeed. -/
def update_profile_inner (db : UsersDb) (userId : Nat) (patch : ProfilePatch) :
    (Except HttpError String) × UsersDb :=
  if patch.first_name = none ∧ patch.last_name = none ∧
     patch.email = none ∧ patch.mobile_number = none then
    (.error (400, "No update fields provided"), db)
  else
    match db.users.find? (fun u => decide (u.uid = userId)) with
    | none => (.error (400, "No changes made to profile"), db)
    | some u =>
        if applyPatch patch u = u then
          (.error (400, "No changes made to profile"), db)
        else
          (.ok "User profile details Updated Successfully",
           { db with
             users := updateFirst (fun v => decide (v.uid = userId))
               (applyPatch patch) db.users })

/-- `auth_routes.update_profile` (`PUT /auth/profiles`): the whole handler
body sits in `try: ... except Exception`, and FastAPI's `HTTPException`
is an `Exception`, so every `HTTPException(code, detail)` raised inside —
including the 400 for an empty patch — is caught and re-raised as
`HTTPException(500, "An error occurred during profile update: " +
str(e))`, where `str(e)` is `"code: detail"`. -/
def update_profile (db : UsersDb) (userId : Nat) (patch : ProfilePatch) :
    (Except HttpError String) × UsersDb :=
  match update_profile_inner db userId patch with
  | (.error (code, detail), db') =>
      (.error (500, "An error occurred during profile update: " ++
                    toString code ++ ": " ++ detail), db')
  | ok => ok

/-- The logged-in user summary a successful callback stores in the
session (`request.session["user"]`). -/
structure SessionUser where
  id : String
  email : String
  first_name : String
  last_name : String
  profile_picture : Option String := none
  auth_provider : String
deriving DecidableEq, Repr

/-- The server-side session of one cookie: one pending OAuth state slot
per provider plus the logged-in user. -/
structure Session where
  google_oauth_state : Option String := none
  linkedin_oauth_state : Option String := none
  facebook_oauth_state : Option String := none
  user : Option SessionUser := none
deriving DecidableEq, Repr

/-- Query parameters a provider redirect may carry back to a callback
route. -/
structure CallbackQuery where
  code : Option String := none
  state : Option String := none
  error : Option String := none
  error_description : Option String := none
deriving DecidableEq, Repr

/-- Control-flow instrumentation of one callback invocation:
whether the handler performed the session state lookup/verification, and
whether it called the provider's token endpoint. -/
structure CallbackEffects where
  checkedState : Bool
  calledTokenEndpoint : Bool
deriving DecidableEq, Repr

/-- User object of a successful OAuth callback response body
(`profile_picture` is only present in the Facebook response). -/
structure OAuthUser where
  id : String
  email : String
  first_name : String
  last_name : String
  profile_picture : Option String := none
deriving DecidableEq, Repr

/-- Body of a successful OAuth callback response. -/
structure OAuthResponse where
  access_token : TokenStr
  user : OAuthUser
deriving DecidableEq, Repr

deriving instance DecidableEq for Except

/-- Everything a callback invocation produces: the HTTP response, and the
updated users collection, session and effect trace. -/
structure CallbackOut where
  response : Except HttpError OAuthResponse
  db : UsersDb
  session : Session
  effects : CallbackEffects
deriving DecidableEq, Repr

/-- A normalized external profile (email plus name parts) as extracted
from a provider userinfo response. -/
structure OAuthProfile where
  email : String
  first_name : String
  last_name : String
deriving DecidableEq, Repr

/-- The account-reconciliation step of `auth_google_callback`
(lines 248–274): find by email; if absent, insert a new user with a
hashed random password and `auth_provider = "google"`; if present,
`$set` only `first_name`, `last_name` and `auth_provider` on the existing
document.  Returns `str`-able user id and the updated collection.
`randPw` is the hash of the `random.randint(100000, 999999)` draw. -/
def google_reconcile (db : UsersDb) (p : OAuthProfile) (randPw : HashVal) :
    Nat × UsersDb :=
  match db.users.find? (fun u => decide (u.email = p.email)) with
  | none =>
      let newUser : UserRec :=
        { uid := db.nextId, email := p.email,
          first_name := some p.first_name, last_name := some p.last_name,
          password := randPw, auth_provider := some "google" }
      (db.nextId, { users := db.users ++ [newUser], nextId := db.nextId + 1 })
  | some u =>
      (u.uid, { db with
        users := updateFirst (fun v => decide (v.email = p.email))
          (fun v => { v with first_name := some p.first_name,
                             last_name := some p.last_name,
                             auth_provider := some "google" }) db.users })

/-- Responses the Google endpoints give to this request:
`access_token` is `token_data.get("access_token")` of the token-endpoint
response; the remaining fields are `user_info.get(...)` of the userinfo
response. -/
structure GoogleWorld where
  access_token : Option String
  email : Option String := none
  given_name : Option String := none
  family_name : Option String := none
deriving DecidableEq, Repr

/-- `auth_routes.auth_google` (`GET /auth/google`): mint a state and store
it in the session under the Google-specific key, then redirect to the
provider authorize URL (URL construction elided). -/
def auth_google_start (session : Session) (state : String) : Session :=
  { session with google_oauth_state := some state }

/-- `auth_routes.auth_google_callback` (`GET /auth/google/callback`).
The handler signature is `(code: str, state: Optional[str])`: it declares
**no** `error` parameter (FastAPI ignores undeclared query parameters),
and `code` is required, so a request without a `code` is rejected by
FastAPI's parameter validation (422) before the handler body runs.
The body verifies the stored session state (outside the `try`), exchanges
the code, fetches the profile, reconciles the account, issues the
application token and records the user in the session.  `HTTPException`s
raised inside the `try` are caught by `except Exception` and re-raised as
`HTTPException(400, str(e))`. -/
def auth_google_callback (db : UsersDb) (session : Session) (now : Nat)
    (randPw : HashVal) (world : GoogleWorld) (q : CallbackQuery) :
    CallbackOut :=
  match q.code with
  | none =>
      { response := .error (422, "Field required: code"),
        db := db, session := session,
        effects := { checkedState := false, calledTokenEndpoint := false } }
  | some _ =>
      if session.google_oauth_state = none ∨
         session.google_oauth_state ≠ q.state then
        { response := .error (400, "Invalid state parameter"),
          db := db, session := session,
          effects := { checkedState := true, calledTokenEndpoint := false } }
      else
        match world.access_token with
        | none =>
            { response := .error (400, "400: Failed to retrieve access token"),
              db := db, session := session,
              effects := { checkedState := true, calledTokenEndpoint := true } }
        | some _ =>
            let email := world.email.getD ""
            let first_name := world.given_name.getD ""
            let last_name := world.family_name.getD ""
            if world.email = none then
              { response := .error (400, "400: Failed to retrieve user email"),
                db := db, session := session,
                effects := { checkedState := true, calledTokenEndpoint := true } }
            else
              let r := google_reconcile db
                { email := email, first_name := first_name,
                  last_name := last_name } randPw
              let user_id := r.1
              let app_token := generate_access_token
                [("sub", toString user_id), ("email", email)] now none
              let sessUser : SessionUser :=
                { id := toString user_id, email := email,
                  first_name := first_name, last_name := last_name,
                  auth_provider := "google" }
              { response := .ok
                  { access_token := app_token,
                    user := { id := toString user_id, email := email,
                              first_name := first_name,
                              last_name := last_name } },
                db := r.2,
                session := { session with user := some sessUser },
                effects := { checkedState := true, calledTokenEndpoint := true } }

/-- Responses the LinkedIn endpoints give to this request.
`token_http_error` / `user_http_error` are the response body texts when
the respective endpoint answers non-2xx (`raise_for_status` →
`httpx.HTTPStatusError`); `access_token` is the token field of a 2xx
token response (`none` models the field being absent, in which case the
`token_info["access_token"]` key access raises and the generic 500
handler answers; the exact `str(KeyError)` text is abbreviated here). -/
structure LinkedInWorld where
  token_http_error : Option String := none
  access_token : Option String := none
  user_http_error : Option String := none
  sub : Option String := none
  email : Option String := none
  given_name : Option String := none
  family_name : Option String := none
deriving DecidableEq, Repr

/-- `auth_routes.auth_linkedin` (`GET /auth/linkedin`): mint a state and
store it under the LinkedIn-specific session key (redirect URL
construction elided). -/
def auth_linkedin_start (session : Session) (state : String) : Session :=
  { session with linkedin_oauth_state := some state }

/-- The account-reconciliation step of `linkedin_callback`
(lines 396–426): like the Google one, but the insert and update also
carry `linkedin_id` (the provider's `sub`), and `auth_provider` is
`"linkedin"`. -/
def linkedin_reconcile (db : UsersDb) (p : OAuthProfile)
    (providerSub : String) (randPw : HashVal) : Nat × UsersDb :=
  match db.users.find? (fun u => decide (u.email = p.email)) with
  | none =>
      let newUser : UserRec :=
        { uid := db.nextId, email := p.email,
          first_name := some p.first_name, last_name := some p.last_name,
          password := randPw, linkedin_id := some providerSub,
          auth_provider := some "linkedin" }
      (db.nextId, { users := db.users ++ [newUser], nextId := db.nextId + 1 })
  | some u =>
      (u.uid, { db with
        users := updateFirst (fun v => decide (v.email = p.email))
          (fun v => { v with first_name := some p.first_name,
                             last_name := some p.last_name,
                             linkedin_id := some providerSub,
                             auth_provider := some "linkedin" }) db.users })

/-- `auth_routes.linkedin_callback` (`GET /auth/linkedin/callback`).
Order of the handler: (1) a provider-supplied `error` parameter is
surfaced at once as a 400 `"LinkedIn OAuth error: ..."`, before the state
lookup and before any exchange; (2) missing `code` or `state` → 400;
(3) session state verification; (4) code→token exchange and userinfo
fetch inside `try`, where `httpx.HTTPStatusError` → 400
`"LinkedIn API error: ..."` and any other exception — including the
handler's own `HTTPException(400, "Failed to retrieve user email")` —
is re-raised as 500 `"An error occurred: " + str(e)`. -/
def linkedin_callback (db : UsersDb) (session : Session) (now : Nat)
    (randPw : HashVal) (world : LinkedInWorld) (q : CallbackQuery) :
    CallbackOut :=
  match q.error with
  | some err =>
      let msg := match q.error_description with
        | some d => "LinkedIn OAuth error: " ++ err ++ " - " ++ d
        | none => "LinkedIn OAuth error: " ++ err
      { response := .error (400, msg), db := db, session := session,
        effects := { checkedState := false, calledTokenEndpoint := false } }
  | none =>
  if q.code = none ∨ q.state = none then
    { response := .error (400, "Missing required parameters (code or state)"),
      db := db, session := session,
      effects := { checkedState := false, calledTokenEndpoint := false } }
  else
    if session.linkedin_oauth_state = none ∨
       session.linkedin_oauth_state ≠ q.state then
      { response := .error (400, "Invalid state parameter"),
        db := db, session := session,
        effects := { checkedState := true, calledTokenEndpoint := false } }
    else
      match world.token_http_error with
      | some txt =>
          { response := .error (400, "LinkedIn API error: " ++ txt),
            db := db, session := session,
            effects := { checkedState := true, calledTokenEndpoint := true } }
      | none =>
      match world.access_token with
      | none =>
          { response := .error (500, "An error occurred: KeyError access_token"),
            db := db, session := session,
            effects := { checkedState := true, calledTokenEndpoint := true } }
      | some _ =>
      match world.user_http_error with
      | some txt =>
          { response := .error (400, "LinkedIn API error: " ++ txt),
            db := db, session := session,
            effects := { checkedState := true, calledTokenEndpoint := true } }
      | none =>
      let providerSub := world.sub.getD ""
      let email := world.email.getD ""
      let given_name := world.given_name.getD ""
      let family_name := world.family_name.getD ""
      if email = "" then
        { response := .error
            (500, "An error occurred: 400: Failed to retrieve user email"),
          db := db, session := session,
          effects := { checkedState := true, calledTokenEndpoint := true } }
      else
        let r := linkedin_reconcile db
          { email := email, first_name := given_name,
            last_name := family_name } providerSub randPw
        let user_id := r.1
        let app_token := generate_access_token
          [("sub", toString user_id), ("email", email)] now none
        let sessUser : SessionUser :=
          { id := toString user_id, email := email,
            first_name := given_name, last_name := family_name,
            auth_provider := "linkedin" }
        { response := .ok
            { access_token := app_token,
              user := { id := toString user_id, email := email,
                        first_name := given_name,
                        last_name := family_name } },
          db := r.2,
          session := { session with user := some sessUser },
          effects := { checkedState := true, calledTokenEndpoint := true } }

/-- Responses the Facebook endpoints give to this request (same reading
as `LinkedInWorld`; `access_token` is keyed access
`token_data["access_token"]`, the userinfo fields are `.get(..., "")`
reads, `picture_url` is the nested
`picture.data.url` read). -/
structure FacebookWorld where
  token_http_error : Option String := none
  access_token : Option String := none
  user_http_error : Option String := none
  fb_id : Option String := none
  email : Option String := none
  first_name : Option String := none
  last_name : Option String := none
  picture_url : Option String := none
deriving DecidableEq, Repr

/-- `auth_routes.auth_facebook` (`GET /auth/facebook`): mint a state and
store it under the Facebook-specific session key (redirect URL
construction elided). -/
def auth_facebook_start (session : Session) (state : String) : Session :=
  { session with facebook_oauth_state := some state }

/-- The account-reconciliation step of `facebook_callback`
(lines 552–584): insert/update with `facebook_id`, `profile_picture` and
`auth_provider = "facebook"`. -/
def facebook_reconcile (db : UsersDb) (p : OAuthProfile)
    (facebookId : String) (picture : String) (randPw : HashVal) :
    Nat × UsersDb :=
  match db.users.find? (fun u => decide (u.email = p.email)) with
  | none =>
      let newUser : UserRec :=
        { uid := db.nextId, email := p.email,
          first_name := some p.first_name, last_name := some p.last_name,
          password := randPw, facebook_id := some facebookId,
          profile_picture := some picture,
          auth_provider := some "facebook" }
      (db.nextId, { users := db.users ++ [newUser], nextId := db.nextId + 1 })
  | some u =>
      (u.uid, { db with
        users := updateFirst (fun v => decide (v.email = p.email))
          (fun v => { v with first_name := some p.first_name,
                             last_name := some p.last_name,
                             facebook_id := some facebookId,
                             profile_picture := some picture,
                             auth_provider := some "facebook" }) db.users })

/-- `auth_routes.facebook_callback` (`GET /auth/facebook/callback`).
Same front matter as the LinkedIn handler (provider `error` first, then
missing-parameter check, then state verification, then the exchange in a
`try`).  The decisive difference on the success path: the handler never
calls `generate_access_token` — the `access_token` it returns in the
response body is the **provider's** access token obtained from the
Facebook token endpoint (`token_data["access_token"]`), an opaque
external string. -/
def facebook_callback (db : UsersDb) (session : Session)
    (randPw : HashVal) (world : FacebookWorld) (q : CallbackQuery) :
    CallbackOut :=
  match q.error with
  | some err =>
      let msg := match q.error_description with
        | some d => "Facebook OAuth error: " ++ err ++ " - " ++ d
        | none => "Facebook OAuth error: " ++ err
      { response := .error (400, msg), db := db, session := session,
        effects := { checkedState := false, calledTokenEndpoint := false } }
  | none =>
  if q.code = none ∨ q.state = none then
    { response := .error (400, "Missing required parameters (code or state)"),
      db := db, session := session,
      effects := { checkedState := false, calledTokenEndpoint := false } }
  else
    if session.facebook_oauth_state = none ∨
       session.facebook_oauth_state ≠ q.state then
      { response := .error (400, "Invalid state parameter"),
        db := db, session := session,
        effects := { checkedState := true, calledTokenEndpoint := false } }
    else
      match world.token_http_error with
      | some txt =>
          { response := .error (400, "Facebook API error: " ++ txt),
            db := db, session := session,
            effects := { checkedState := true, calledTokenEndpoint := true } }
      | none =>
      match world.access_token with
      | none =>
          { response := .error (500, "An error occurred: KeyError access_token"),
            db := db, session := session,
            effects := { checkedState := true, calledTokenEndpoint := true } }
      | some provider_token =>
      match world.user_http_error with
      | some txt =>
          { response := .error (400, "Facebook API error: " ++ txt),
            db := db, session := session,
            effects := { checkedState := true, calledTokenEndpoint := true } }
      | none =>
      let facebook_id := world.fb_id.getD ""
      let email := world.email.getD ""
      let first_name := world.first_name.getD ""
      let last_name := world.last_name.getD ""
      let profile_picture := world.picture_url.getD ""
      if email = "" then
        { response := .error
            (500, "An error occurred: 400: Failed to retrieve user email"),
          db := db, session := session,
          effects := { checkedState := true, calledTokenEndpoint := true } }
      else
        let r := facebook_reconcile db
          { email := email, first_name := first_name,
            last_name := last_name } facebook_id profile_picture randPw
        let user_id := r.1
        let sessUser : SessionUser :=
          { id := toString user_id, email := email,
            first_name := first_name, last_name := last_name,
            profile_picture := some profile_picture,
            auth_provider := "facebook" }
        { response := .ok
            { access_token := .raw provider_token,
              user := { id := toString user_id, email := email,
                        first_name := first_name, last_name := last_name,
                        profile_picture := some profile_picture } },
          db := r.2,
          session := { session with user := some sessUser },
          effects := { checkedState := true, calledTokenEndpoint := true } }

/-- `main.logout` (`GET /logout`): pops the logged-in user and all three
provider state slots from the session. -/
def logout (session : Session) : Session :=
  { session with google_oauth_state := none, linkedin_oauth_state := none,
                 facebook_oauth_state := none, user := none }

/-- A document of the `documents` collection, reduced to the fields the
ownership claims read: `_id` (its canonical 24-hex string form),
the owner's `user_id` (the `str(_id)` of a user, as stored by
`create_document` from `current_user["id"]`), and the document name
standing for the payload.  The remaining optional payload fields play no
role in any filter involved here. -/
structure DocRec where
  docId : String
  user_id : String
  document_name : String
deriving DecidableEq, Repr

/-- `bson.ObjectId.is_valid` on a string: exactly 24 hexadecimal
characters. -/
def objectIdIsValid (s : String) : Bool :=
  s.length = 24 && s.toList.all (fun c =>
    c.isDigit || ("abcdefABCDEF".toList.contains c))

/-- Lower-case a hexadecimal digit character. -/
def lowerHexChar (c : Char) : Char :=
  if c = 'A' then 'a' else if c = 'B' then 'b' else if c = 'C' then 'c'
  else if c = 'D' then 'd' else if c = 'E' then 'e' else if c = 'F' then 'f'
  else c

/-- `ObjectId(s)`: the canonical (lower-case hex) form under which
ObjectId equality compares. -/
def parseObjectId (s : String) : String := String.mk (s.data.map lowerHexChar)

/-- `document_routes.read_documents` (`GET /api/documents/`): find all
documents whose `user_id` is the requester's id, paginated by
skip/limit. -/
def read_documents (docs : List DocRec) (skip limit : Nat)
    (currentUserId : String) : List DocRec :=
  (((docs.filter (fun d => decide (d.user_id = currentUserId))).drop skip).take limit)

/-- `document_routes.read_document` (`GET /api/documents/{document_id}`):
reject malformed ids (400), then `find_one` with the **conjunctive**
filter `{_id: ObjectId(document_id), user_id: current_user["id"]}`;
a miss — whether the document is absent or owned by someone else — is
the single 404 "Document not found or unauthorized". -/
def read_document (docs : List DocRec) (document_id : String)
    (currentUserId : String) : Except HttpError DocRec :=
  if ¬ objectIdIsValid document_id then
    .error (400, "Invalid document ID format")
  else
    match docs.find? (fun d =>
        decide (d.docId = parseObjectId document_id ∧
                d.user_id = currentUserId)) with
    | none => .error (404, "Document not found or unauthorized")
    | some doc => .ok doc

/-! ### List bookkeeping lemmas for `updateFirst` (Mongo `update_one`) -/

theorem updateFirst_of_find?_eq_none {p : α → Bool} (f : α → α) :
    ∀ l : List α, l.find? p = none → updateFirst p f l = l
  | [], _ => rfl
  | a :: l, h => by
      cases hpa : p a with
      | true => simp [List.find?_cons_of_pos _ hpa] at h
      | false =>
          rw [List.find?_cons_of_neg _ (by simp [hpa])] at h
          simp [updateFirst, hpa, updateFirst_of_find?_eq_none f l h]

theorem find?_updateFirst_of_pos {p : α → Bool} {f : α → α} :
    ∀ {l : List α} {u : α}, l.find? p = some u → p (f u) = true →
      (updateFirst p f l).find? p = some (f u)
  | a :: l, u, h, hfu => by
      cases hpa : p a with
      | true =>
          rw [List.find?_cons_of_pos _ hpa] at h
          cases h
          simp [updateFirst, hpa, List.find?_cons_of_pos _ hfu]
      | false =>
          rw [List.find?_cons_of_neg _ (by simp [hpa])] at h
          have ih := find?_updateFirst_of_pos (f := f) h hfu
          simp only [updateFirst, hpa]
          rw [if_neg (by simp), List.find?_cons_of_neg _ (by simp [hpa])]
          exact ih

theorem updateFirst_eq_self {p : α → Bool} {f : α → α} :
    ∀ {l : List α} {u : α}, l.find? p = some u → f u = u →
      updateFirst p f l = l
  | a :: l, u, h, hfu => by
      cases hpa : p a with
      | true =>
          rw [List.find?_cons_of_pos _ hpa] at h
          cases h
          simp [updateFirst, hpa, hfu]
      | false =>
          rw [List.find?_cons_of_neg _ (by simp [hpa])] at h
          simp [updateFirst, hpa, updateFirst_eq_self h hfu]

theorem filter_length_updateFirst {p q : α → Bool} {f : α → α}
    (hpres : ∀ a, q (f a) = q a) :
    ∀ l : List α, ((updateFirst p f l).filter q).length = (l.filter q).length
  | [] => rfl
  | a :: l => by
      cases hpa : p a with
      | true =>
          cases hqa : q a with
          | true => simp [updateFirst, hpa, List.filter_cons, hpres a, hqa]
          | false => simp [updateFirst, hpa, List.filter_cons, hpres a, hqa]
      | false =>
          cases hqa : q a with
          | true =>
              simp [updateFirst, hpa, List.filter_cons, hqa,
                    filter_length_updateFirst hpres l]
          | false =>
              simp [updateFirst, hpa, List.filter_cons, hqa,
                    filter_length_updateFirst hpres l]

theorem mem_updateFirst_of_neg {p : α → Bool} {f : α → α} {v : α} :
    ∀ {l : List α}, v ∈ l → p v = false → v ∈ updateFirst p f l
  | a :: l, hv, hpv => by
      cases hpa : p a with
      | true =>
          simp only [updateFirst, hpa, if_true]
          rcases List.mem_cons.mp hv with rfl | h
          · rw [hpa] at hpv; cases hpv
          · exact List.mem_cons_of_mem _ h
      | false =>
          simp only [updateFirst, hpa, if_false]
          rcases List.mem_cons.mp hv with rfl | h
          · exact List.mem_cons_self _ _
          · exact List.mem_cons_of_mem _ (mem_updateFirst_of_neg h hpv)

theorem length_updateFirst {p : α → Bool} {f : α → α} :
    ∀ l : List α, (updateFirst p f l).length = l.length
  | [] => rfl
  | a :: l => by
      cases hpa : p a with
      | true => simp [updateFirst, hpa]
      | false => simp [updateFirst, hpa, length_updateFirst l]

/-! ### Claim theorems -/

/-- **C1** (code bug): evaluated on a fully successful Facebook callback
(valid state, provider token `"fb-provider-token"`, complete profile),
the response body's `access_token` is the **provider's** access token
verbatim — `facebook_callback` never invokes the Token Service — and that
string is not a verifiable application identity token (verification
fails), so its decoded subject cannot equal the reconciled user id.  By
contrast, the LinkedIn callback on the analogous input returns the
application token issued by `generate_access_token` with subject `"0"`,
the reconciled local user id.  This contradicts the claim that all three
callbacks alike return a Token-Service-issued token. -/
theorem facebook_callback_returns_provider_token :
    (facebook_callback { users := [], nextId := 0 }
        { facebook_oauth_state := some "st" } (hash_password "123456")
        { access_token := some "fb-provider-token", fb_id := some "fb123",
          email := some "u@x.com", first_name := some "Ada",
          last_name := some "L", picture_url := some "http://pic" }
        { code := some "c", state := some "st" }).response =
      .ok { access_token := TokenStr.raw "fb-provider-token",
            user := { id := "0", email := "u@x.com", first_name := "Ada",
                      last_name := "L", profile_picture := some "http://pic" } }
    ∧ verify_access_token (TokenStr.raw "fb-provider-token") 0 =
        .error "Invalid token"
    ∧ (linkedin_callback { users := [], nextId := 0 }
        { linkedin_oauth_state := some "st" } 50 (hash_password "123456")
        { access_token := some "li-provider-token", sub := some "li1",
          email := some "u@x.com", given_name := some "Ada",
          family_name := some "L" }
        { code := some "c", state := some "st" }).response =
      .ok { access_token :=
              generate_access_token [("sub", "0"), ("email", "u@x.com")] 50 none,
            user := { id := "0", email := "u@x.com", first_name := "Ada",
                      last_name := "L" } } :=
  ⟨rfl, rfl, rfl⟩

/-- **C2** (counterexample): a Google callback request that carries a
provider-supplied `error` parameter (here together with a code and a
matching state, and a token endpoint that yields no token) does **not**
fail with a dedicated provider-denied error: the handler ignores the
undeclared `error` parameter, performs the session state lookup, and
calls the token endpoint — refuting the "every provider callback"
quantification of the claim. -/
theorem google_callback_ignores_error_param :
    (auth_google_callback { users := [], nextId := 0 }
        { google_oauth_state := some "s" } 0 (hash_password "222222")
        { access_token := none }
        { code := some "c", state := some "s",
          error := some "access_denied" }).effects =
      { checkedState := true, calledTokenEndpoint := true }
    ∧ (auth_google_callback { users := [], nextId := 0 }
        { google_oauth_state := some "s" } 0 (hash_password "222222")
        { access_token := none }
        { code := some "c", state := some "s",
          error := some "access_denied" }).response =
      .error (400, "400: Failed to retrieve access token") :=
  ⟨rfl, rfl⟩

/-- **C3** (code bug): `forgot_password` stores only the hashed 4-digit
code — the stored record's `otp_expiration` stays absent, no expiry is
written — and `reset_password` consults no clock at all (it takes no time
parameter), so a reset with the correct code succeeds after any elapsed
time, 15 minutes included.  The repository's own (route-unreachable)
`generate_otp`/`verify_otp` pair shows the intended behaviour: it stores
`now + 15*60` and rejects the same code at `15*60 + 1` seconds. -/
theorem forgot_password_stores_no_expiry :
    (forgot_password
        { users := [{ uid := 0, email := "a@x.com",
                      password := hash_password "pw" }], nextId := 1 }
        "a@x.com" 234).1 = .ok "Temporary password sent to your email"
    ∧ (forgot_password
        { users := [{ uid := 0, email := "a@x.com",
                      password := hash_password "pw" }], nextId := 1 }
        "a@x.com" 234).2.1.users =
      [{ uid := 0, email := "a@x.com", password := hash_password "pw",
         temp_password := some (hash_password "1234"),
         otp_expiration := none }]
    ∧ (reset_password
        (forgot_password
          { users := [{ uid := 0, email := "a@x.com",
                        password := hash_password "pw" }], nextId := 1 }
          "a@x.com" 234).2.1
        { otp := "1234", new_password := "np",
          confirm_password := "np" }).1 = .ok "Password reset successfully"
    ∧ verify_otp
        (generate_otp
          { users := [{ uid := 0, email := "a@x.com",
                        password := hash_password "pw" }], nextId := 1 }
          "a@x.com" 0 234).2
        "a@x.com" "1234" (15 * 60 + 1) = false :=
  ⟨rfl, rfl, rfl, rfl⟩

/-- **C4** (counterexample): after a fully successful Google callback
with state `"st"`, the session still holds `google_oauth_state = "st"` —
the handler reads the state with `session.get` and never pops it — and a
second callback in the same session presenting the same state `"st"`
succeeds again instead of being rejected. -/
theorem google_state_not_consumed :
    (auth_google_callback { users := [], nextId := 0 }
        { google_oauth_state := some "st" } 50 (hash_password "222222")
        { access_token := some "g-tok", email := some "u@x.com",
          given_name := some "A", family_name := some "B" }
        { code := some "c", state := some "st" }).response =
      .ok { access_token :=
              generate_access_token [("sub", "0"), ("email", "u@x.com")] 50 none,
            user := { id := "0", email := "u@x.com", first_name := "A",
                      last_name := "B" } }
    ∧ (auth_google_callback { users := [], nextId := 0 }
        { google_oauth_state := some "st" } 50 (hash_password "222222")
        { access_token := some "g-tok", email := some "u@x.com",
          given_name := some "A", family_name := some "B" }
        { code := some "c", state := some "st" }).session.google_oauth_state =
      some "st"
    ∧ (auth_google_callback
        (auth_google_callback { users := [], nextId := 0 }
          { google_oauth_state := some "st" } 50 (hash_password "222222")
          { access_token := some "g-tok", email := some "u@x.com",
            given_name := some "A", family_name := some "B" }
          { code := some "c", state := some "st" }).db
        (auth_google_callback { users := [], nextId := 0 }
          { google_oauth_state := some "st" } 50 (hash_password "222222")
          { access_token := some "g-tok", email := some "u@x.com",
            given_name := some "A", family_name := some "B" }
          { code := some "c", state := some "st" }).session
        50 (hash_password "333333")
        { access_token := some "g-tok", email := some "u@x.com",
          given_name := some "A", family_name := some "B" }
        { code := some "c", state := some "st" }).response =
      .ok { access_token :=
              generate_access_token [("sub", "0"), ("email", "u@x.com")] 50 none,
            user := { id := "0", email := "u@x.com", first_name := "A",
                      last_name := "B" } } :=
  ⟨rfl, rfl, rfl⟩

/-- **C9** (code bug): a profile update with all four patch slots absent
from an authenticated user fails — leaving the stored record unchanged —
but is reported as status **500** (`InternalError`), not 400: the
handler's own `HTTPException(400, "No update fields provided")` is raised
inside `try: ... except Exception`, which catches it and re-raises
`HTTPException(500, "An error occurred during profile update: 400: No
update fields provided")`. -/
theorem update_profile_empty_patch_500 :
    update_profile
        { users := [{ uid := 0, email := "a@x.com",
                      password := hash_password "pw" }], nextId := 1 }
        0 {} =
      (.error (500,
         "An error occurred during profile update: 400: No update fields provided"),
       { users := [{ uid := 0, email := "a@x.com",
                     password := hash_password "pw" }], nextId := 1 }) :=
  rfl

/-- **C5**: verifying a freshly issued token returns the original claims
plus the computed expiry (`issue time + TTL`, default TTL 86400 s = 24 h)
at any time strictly before the TTL has elapsed; verifying at or after
`issue time + TTL` fails with the Expired kind (`"Token has expired"`);
verifying a tampered token (payload replaced, signature kept) fails with
the Invalid kind (`"Invalid token"`); and every outcome of
`verify_access_token` is success, Expired, or Invalid — no other failure
kind exists. -/
theorem token_issue_verify_roundtrip :
    (∀ (claims : ClaimsMap) (t0 t : Nat), t < t0 + 86400 →
      verify_access_token (generate_access_token claims t0 none) t =
        .ok { claims := claims, exp := t0 + 86400 })
    ∧ (∀ (claims : ClaimsMap) (t0 t : Nat), t0 + 86400 ≤ t →
      verify_access_token (generate_access_token claims t0 none) t =
        .error "Token has expired")
    ∧ (∀ (claims : ClaimsMap) (t0 t : Nat) (p : JwtPayload),
        p ≠ { claims := claims, exp := t0 + 86400 } →
      verify_access_token (tamper (generate_access_token claims t0 none) p) t =
        .error "Invalid token")
    ∧ (∀ (tok : TokenStr) (t : Nat),
        (∃ p, verify_access_token tok t = .ok p) ∨
        verify_access_token tok t = .error "Token has expired" ∨
        verify_access_token tok t = .error "Invalid token") := by
  refine ⟨?_, ?_, ?_, ?_⟩
  · intro claims t0 t ht
    simp [generate_access_token, verify_access_token, Nat.not_le.mpr ht]
  · intro claims t0 t ht
    simp [generate_access_token, verify_access_token, ht]
  · intro claims t0 t p hp
    simp only [generate_access_token, verify_access_token, tamper]
    rw [if_neg]
    intro h
    exact hp (congrArg Signature.signedPayload h).symm
  · intro tok t
    cases tok with
    | raw s => exact Or.inr (Or.inr rfl)
    | jws payload sig =>
        by_cases hs : sig = { signedPayload := payload, key := SECRET_KEY }
        · by_cases he : payload.exp ≤ t
          · exact Or.inr (Or.inl (by simp [verify_access_token, hs, he]))
          · exact Or.inl ⟨payload, by simp [verify_access_token, hs, he]⟩
        · exact Or.inr (Or.inr (by simp [verify_access_token, hs]))

/-- **C10**: a login whose email matches no stored user and a login whose
email matches but whose password hash differs produce literally the same
error — status 400 with detail `"Invalid email or password"` — revealing
nothing about which half of the credential was wrong. -/
theorem login_failure_uniform_response :
    ∀ (db : UsersDb) (now1 now2 : Nat) (r1 r2 : LoginRequest) (u : UserRec),
      db.users.find? (fun v => decide (v.email = r1.email)) = none →
      db.users.find? (fun v => decide (v.email = r2.email)) = some u →
      hash_password r2.password ≠ u.password →
      login_user db now1 r1 = .error (400, "Invalid email or password")
      ∧ login_user db now2 r2 = .error (400, "Invalid email or password") := by
  intro db n1 n2 r1 r2 u h1 h2 h3
  constructor
  · simp [login_user, h1]
  · simp [login_user, h2, h3]

/-- Witness for **C5** at concrete inputs: claims `[("sub","1")]` issued
at time 0, verified at 86399 (ok), at 86400 (expired), and tampered to a
different payload (invalid). -/
theorem token_issue_verify_roundtrip_witness :
    verify_access_token (generate_access_token [("sub", "1")] 0 none) 86399 =
      .ok { claims := [("sub", "1")], exp := 86400 }
    ∧ verify_access_token (generate_access_token [("sub", "1")] 0 none) 86400 =
      .error "Token has expired"
    ∧ verify_access_token
        (tamper (generate_access_token [("sub", "1")] 0 none)
          { claims := [("sub", "2")], exp := 86400 }) 5 =
      .error "Invalid token" :=
  ⟨token_issue_verify_roundtrip.1 [("sub", "1")] 0 86399 (by decide),
   token_issue_verify_roundtrip.2.1 [("sub", "1")] 0 86400 (by decide),
   token_issue_verify_roundtrip.2.2.1 [("sub", "1")] 0 5
     { claims := [("sub", "2")], exp := 86400 } (by decide)⟩

/-- Witness for **C10**: a store holding only `b@x.com`; an unknown-email
login and a wrong-password login both yield the identical 400 response. -/
theorem login_failure_uniform_response_witness :
    login_user
        { users := [{ uid := 0, email := "b@x.com",
                      password := hash_password "right" }], nextId := 1 }
        0 { email := "a@x.com", password := "whatever" } =
      .error (400, "Invalid email or password")
    ∧ login_user
        { users := [{ uid := 0, email := "b@x.com",
                      password := hash_password "right" }], nextId := 1 }
        0 { email := "b@x.com", password := "wrong" } =
      .error (400, "Invalid email or password") :=
  login_failure_uniform_response
    { users := [{ uid := 0, email := "b@x.com",
                  password := hash_password "right" }], nextId := 1 }
    0 0 { email := "a@x.com", password := "whatever" }
    { email := "b@x.com", password := "wrong" }
    { uid := 0, email := "b@x.com", password := hash_password "right" }
    (by decide) (by decide) (by decide)

/-- **C8**: for every document store and requester, (1) the listing
returns only documents whose `user_id` is the requester's id; (2) a
single-document read can only succeed with a document owned by the
requester; (3) when a document with the requested `_id` exists under a
different owner and none under the requester, the read fails with the
single 404 `"Document not found or unauthorized"` error. -/
theorem documents_owner_scoped :
    ∀ (docs : List DocRec) (uid : String),
      (∀ (skip limit : Nat) (d : DocRec),
        d ∈ read_documents docs skip limit uid → d.user_id = uid)
      ∧ (∀ (s : String) (d : DocRec),
        read_document docs s uid = .ok d → d.user_id = uid)
      ∧ (∀ s : String, objectIdIsValid s = true →
        (∃ d ∈ docs, d.docId = parseObjectId s ∧ d.user_id ≠ uid) →
        (∀ d ∈ docs, d.docId = parseObjectId s → d.user_id ≠ uid) →
        read_document docs s uid =
          .error (404, "Document not found or unauthorized")) := by
  intro docs uid
  refine ⟨?_, ?_, ?_⟩
  · intro skip limit d hd
    unfold read_documents at hd
    have h1 := List.mem_of_mem_drop (List.mem_of_mem_take hd)
    exact of_decide_eq_true (List.mem_filter.mp h1).2
  · intro s d h
    unfold read_document at h
    by_cases hv : objectIdIsValid s
    · rw [if_neg (by simpa using hv)] at h
      cases hf : docs.find? (fun d =>
          decide (d.docId = parseObjectId s ∧ d.user_id = uid)) with
      | none => rw [hf] at h; cases h
      | some doc =>
          rw [hf] at h
          cases h
          have h1 := List.find?_some hf
          simp only [decide_eq_true_eq] at h1
          exact h1.2
    · rw [if_pos (by simpa using hv)] at h
      cases h
  · intro s hv _hex hall
    have hnone : docs.find? (fun d =>
        decide (d.docId = parseObjectId s ∧ d.user_id = uid)) = none := by
      rw [List.find?_eq_none]
      intro x hx hpx
      have hp := of_decide_eq_true hpx
      exact hall x hx hp.1 hp.2
    unfold read_document
    rw [if_neg (by simpa using hv), hnone]

/-- Witness for **C8**: a one-document store owned by `owner2`; requester
`me` asking for that very `_id` gets the 404
not-found-or-unauthorized error. -/
theorem documents_owner_scoped_witness :
    read_document
        [{ docId := "aaaaaaaaaaaaaaaaaaaaaaaa", user_id := "owner2",
           document_name := "doc" }]
        "aaaaaaaaaaaaaaaaaaaaaaaa" "me" =
      .error (404, "Document not found or unauthorized") :=
  (documents_owner_scoped
      [{ docId := "aaaaaaaaaaaaaaaaaaaaaaaa", user_id := "owner2",
         document_name := "doc" }] "me").2.2
    "aaaaaaaaaaaaaaaaaaaaaaaa" (by decide) (by decide) (by decide)

/-- In a collection whose `_id`s are pairwise distinct (Mongo enforces
this), looking up any member by its own `_id` finds exactly it. -/
theorem find?_uid_of_pairwise :
    ∀ {l : List UserRec}, l.Pairwise (fun a b => a.uid ≠ b.uid) →
      ∀ {u : UserRec}, u ∈ l →
        l.find? (fun v => decide (v.uid = u.uid)) = some u
  | a :: t, hpw, u, hu => by
      rcases List.mem_cons.mp hu with rfl | hmem
      · exact List.find?_cons_of_pos _ (by simp)
      · have hne : a.uid ≠ u.uid := List.rel_of_pairwise_cons hpw hmem
        rw [List.find?_cons_of_neg _ (by simp [hne])]
        exact find?_uid_of_pairwise (List.pairwise_cons.mp hpw).2 hmem

/-- After clearing the `temp_password` of the (unique) holder of a hash,
no record with that stored hash remains. -/
theorem find?_temp_none_after_clear (h npw : HashVal) :
    ∀ {l : List UserRec} {u : UserRec},
      l.find? (fun v => decide (v.temp_password = some h)) = some u →
      (l.filter (fun v => decide (v.temp_password = some h))).length ≤ 1 →
      l.Pairwise (fun a b => a.uid ≠ b.uid) →
      (updateFirst (fun v => decide (v.uid = u.uid))
          (fun v => { v with password := npw, temp_password := none })
          l).find? (fun v => decide (v.temp_password = some h)) = none
  | a :: t, u, hfind, hlen, hpw => by
      by_cases hta : a.temp_password = some h
      · rw [List.find?_cons_of_pos _ (by simp [hta])] at hfind
        cases hfind
        rw [List.filter_cons_of_pos (by simp [hta]), List.length_cons] at hlen
        have htail : t.filter (fun v => decide (v.temp_password = some h)) = [] :=
          List.length_eq_zero.mp (Nat.le_zero.mp (Nat.le_of_succ_le_succ hlen))
        have htnone : t.find? (fun v => decide (v.temp_password = some h)) = none := by
          rw [List.find?_eq_none]
          intro x hx
          simpa using List.filter_eq_nil_iff.mp htail x hx
        have hstep : updateFirst (fun v => decide (v.uid = a.uid))
            (fun v => { v with password := npw, temp_password := none })
            (a :: t) =
            ({ a with password := npw, temp_password := none } : UserRec) :: t := by
          simp [updateFirst]
        rw [hstep, List.find?_cons_of_neg _ (by simp)]
        exact htnone
      · rw [List.find?_cons_of_neg _ (by simp [hta])] at hfind
        have hmem := List.mem_of_find?_eq_some hfind
        have hne : a.uid ≠ u.uid := List.rel_of_pairwise_cons hpw hmem
        rw [List.filter_cons_of_neg (by simp [hta])] at hlen
        have hstep : updateFirst (fun v => decide (v.uid = u.uid))
            (fun v => { v with password := npw, temp_password := none })
            (a :: t) =
            a :: updateFirst (fun v => decide (v.uid = u.uid))
              (fun v => { v with password := npw, temp_password := none }) t := by
          simp [updateFirst, hne]
        rw [hstep, List.find?_cons_of_neg _ (by simp [hta])]
        exact find?_temp_none_after_clear h npw hfind hlen
          (List.pairwise_cons.mp hpw).2

/-- **C6**: when a reset succeeds (matching confirmation and a stored
hash equal to the hash of the presented code, the holder being unique and
`_id`s distinct), the matched user ends up with the new password hash and
`temp_password` cleared in the same record update, so repeating the very
same reset request against the resulting store fails with "Invalid OTP"
and changes nothing; and every unsuccessful reset — mismatched
confirmation or unknown code — returns the store exactly as it was,
stored OTP hashes included. -/
theorem reset_password_consumes_otp :
    ∀ (db : UsersDb) (r : ResetPasswordRequest) (u : UserRec),
      r.new_password = r.confirm_password →
      db.users.find?
          (fun v => decide (v.temp_password = some (hash_password r.otp))) = some u →
      (db.users.filter
          (fun v => decide (v.temp_password = some (hash_password r.otp)))).length ≤ 1 →
      db.users.Pairwise (fun a b => a.uid ≠ b.uid) →
      (reset_password db r).1 = .ok "Password reset successfully"
      ∧ ((reset_password db r).2).users.find? (fun v => decide (v.uid = u.uid)) =
          some { u with password := hash_password r.new_password,
                        temp_password := none }
      ∧ reset_password ((reset_password db r).2) r =
          (.error (400, "Invalid OTP"), (reset_password db r).2)
      ∧ (∀ (db2 : UsersDb) (r2 : ResetPasswordRequest),
          r2.new_password ≠ r2.confirm_password →
          reset_password db2 r2 = (.error (400, "Passwords do not match"), db2))
      ∧ (∀ (db2 : UsersDb) (r2 : ResetPasswordRequest),
          r2.new_password = r2.confirm_password →
          db2.users.find?
            (fun v => decide (v.temp_password = some (hash_password r2.otp))) = none →
          reset_password db2 r2 = (.error (400, "Invalid OTP"), db2)) := by
  intro db r u heq hfind hlen hpw
  have h4 : ∀ (db2 : UsersDb) (r2 : ResetPasswordRequest),
      r2.new_password ≠ r2.confirm_password →
      reset_password db2 r2 = (.error (400, "Passwords do not match"), db2) := by
    intro db2 r2 hne
    unfold reset_password
    rw [if_pos hne]
  have h5 : ∀ (db2 : UsersDb) (r2 : ResetPasswordRequest),
      r2.new_password = r2.confirm_password →
      db2.users.find?
        (fun v => decide (v.temp_password = some (hash_password r2.otp))) = none →
      reset_password db2 r2 = (.error (400, "Invalid OTP"), db2) := by
    intro db2 r2 heq2 hnone2
    unfold reset_password
    rw [if_neg (by simp [heq2]), hnone2]
  have hok : reset_password db r =
      (.ok "Password reset successfully",
       { db with
         users := updateFirst (fun v => decide (v.uid = u.uid))
           (fun v => { v with password := hash_password r.new_password,
                              temp_password := none }) db.users }) := by
    unfold reset_password
    rw [if_neg (by simp [heq]), hfind]
  have husers : ((reset_password db r).2).users =
      updateFirst (fun v => decide (v.uid = u.uid))
        (fun v => { v with password := hash_password r.new_password,
                           temp_password := none }) db.users := by
    rw [hok]
  have hmem := List.mem_of_find?_eq_some hfind
  have hfinduid := find?_uid_of_pairwise hpw hmem
  refine ⟨by rw [hok], ?_, ?_, h4, h5⟩
  · rw [husers]
    exact find?_updateFirst_of_pos hfinduid (by simp)
  · refine h5 _ r heq ?_
    rw [husers]
    exact find?_temp_none_after_clear (hash_password r.otp)
      (hash_password r.new_password) hfind hlen hpw

/-- Witness for **C6**: one user holding the hash of code `1234`; the
first reset succeeds, the replayed identical reset fails with
"Invalid OTP" and leaves the store unchanged. -/
theorem reset_password_consumes_otp_witness :
    (reset_password
        { users := [{ uid := 0, email := "a@x.com",
                      password := hash_password "pw",
                      temp_password := some (hash_password "1234") }],
          nextId := 1 }
        { otp := "1234", new_password := "np", confirm_password := "np" }).1 =
      .ok "Password reset successfully"
    ∧ reset_password
        ((reset_password
          { users := [{ uid := 0, email := "a@x.com",
                        password := hash_password "pw",
                        temp_password := some (hash_password "1234") }],
            nextId := 1 }
          { otp := "1234", new_password := "np", confirm_password := "np" }).2)
        { otp := "1234", new_password := "np", confirm_password := "np" } =
      (.error (400, "Invalid OTP"),
       (reset_password
          { users := [{ uid := 0, email := "a@x.com",
                        password := hash_password "pw",
                        temp_password := some (hash_password "1234") }],
            nextId := 1 }
          { otp := "1234", new_password := "np", confirm_password := "np" }).2) :=
  ⟨(reset_password_consumes_otp _ _
      { uid := 0, email := "a@x.com", password := hash_password "pw",
        temp_password := some (hash_password "1234") }
      rfl (by decide) (by decide) (by simp)).1,
   (reset_password_consumes_otp _ _
      { uid := 0, email := "a@x.com", password := hash_password "pw",
        temp_password := some (hash_password "1234") }
      rfl (by decide) (by decide) (by simp)).2.2.1⟩

/-- **C7**: from any store in which the profile's email occurs at most
once, running the Google reconciliation twice returns the same user id
both times, the second run changes nothing (`db2 = db1`), exactly one
record with that email is stored afterwards; when a user with that email
already existed, the stored record afterwards is that user with **only**
`first_name`, `last_name` and `auth_provider` overwritten — password and
every other field untouched — and users with other emails are carried
over verbatim. -/
theorem google_reconcile_idempotent :
    ∀ (db : UsersDb) (p : OAuthProfile) (r1 r2 : HashVal),
      (db.users.filter (fun v => decide (v.email = p.email))).length ≤ 1 →
      (google_reconcile (google_reconcile db p r1).2 p r2).1 =
          (google_reconcile db p r1).1
      ∧ (google_reconcile (google_reconcile db p r1).2 p r2).2 =
          (google_reconcile db p r1).2
      ∧ (((google_reconcile db p r1).2).users.filter
            (fun v => decide (v.email = p.email))).length = 1
      ∧ (∀ u, db.users.find? (fun v => decide (v.email = p.email)) = some u →
          ((google_reconcile db p r1).2).users.find?
              (fun v => decide (v.email = p.email)) =
            some { u with first_name := some p.first_name,
                          last_name := some p.last_name,
                          auth_provider := some "google" })
      ∧ (∀ v ∈ db.users, v.email ≠ p.email →
          v ∈ ((google_reconcile db p r1).2).users) := by
  intro db p r1 r2 hlen
  have geq_none : ∀ (db2 : UsersDb) (rr : HashVal),
      db2.users.find? (fun v => decide (v.email = p.email)) = none →
      google_reconcile db2 p rr =
        (db2.nextId,
         { users := db2.users ++
             [{ uid := db2.nextId, email := p.email,
                first_name := some p.first_name,
                last_name := some p.last_name,
                password := rr, auth_provider := some "google" }],
           nextId := db2.nextId + 1 }) := by
    intro db2 rr h
    unfold google_reconcile
    rw [h]
  have geq_some : ∀ (db2 : UsersDb) (rr : HashVal) (w : UserRec),
      db2.users.find? (fun v => decide (v.email = p.email)) = some w →
      google_reconcile db2 p rr =
        (w.uid,
         { db2 with
           users := updateFirst (fun v => decide (v.email = p.email))
             (fun v => { v with first_name := some p.first_name,
                                last_name := some p.last_name,
                                auth_provider := some "google" }) db2.users }) := by
    intro db2 rr w h
    unfold google_reconcile
    rw [h]
  cases hfind : db.users.find? (fun v => decide (v.email = p.email)) with
  | none =>
      have h1 := geq_none db r1 hfind
      have husers1 : (google_reconcile db p r1).2.users =
          db.users ++ [{ uid := db.nextId, email := p.email,
                         first_name := some p.first_name,
                         last_name := some p.last_name,
                         password := r1, auth_provider := some "google" }] := by
        rw [h1]
      have hfind1 : (google_reconcile db p r1).2.users.find?
          (fun v => decide (v.email = p.email)) =
          some { uid := db.nextId, email := p.email,
                 first_name := some p.first_name,
                 last_name := some p.last_name,
                 password := r1, auth_provider := some "google" } := by
        rw [husers1, List.find?_append, hfind,
            List.find?_cons_of_pos _ (by simp)]
        rfl
      refine ⟨?_, ?_, ?_, ?_, ?_⟩
      · rw [geq_some _ r2 _ hfind1, h1]
      · rw [geq_some _ r2 _ hfind1]
        have hself := updateFirst_eq_self (f := fun v : UserRec =>
            { v with first_name := some p.first_name,
                     last_name := some p.last_name,
                     auth_provider := some "google" }) hfind1 rfl
        simp only [hself]
      · rw [husers1, List.filter_append]
        have hnil : db.users.filter (fun v => decide (v.email = p.email)) = [] :=
          List.filter_eq_nil_iff.mpr (List.find?_eq_none.mp hfind)
        rw [hnil, List.filter_cons_of_pos (by simp)]
        rfl
      · intro u hu
        simp [hfind] at hu
      · intro v hv _hne
        rw [husers1]
        exact List.mem_append.mpr (Or.inl hv)
  | some u =>
      have hpu : u.email = p.email := by
        have h0 := List.find?_some hfind
        simpa using h0
      have hmem : u ∈ db.users := List.mem_of_find?_eq_some hfind
      have h1 := geq_some db r1 u hfind
      have husers1 : (google_reconcile db p r1).2.users =
          updateFirst (fun v => decide (v.email = p.email))
            (fun v => { v with first_name := some p.first_name,
                               last_name := some p.last_name,
                               auth_provider := some "google" }) db.users := by
        rw [h1]
      have hfind1 : (google_reconcile db p r1).2.users.find?
          (fun v => decide (v.email = p.email)) =
          some { u with first_name := some p.first_name,
                        last_name := some p.last_name,
                        auth_provider := some "google" } := by
        rw [husers1]
        exact find?_updateFirst_of_pos hfind (by simp [hpu])
      refine ⟨?_, ?_, ?_, ?_, ?_⟩
      · rw [geq_some _ r2 _ hfind1, h1]
      · rw [geq_some _ r2 _ hfind1]
        have hself := updateFirst_eq_self (f := fun v : UserRec =>
            { v with first_name := some p.first_name,
                     last_name := some p.last_name,
                     auth_provider := some "google" }) hfind1 rfl
        simp only [hself]
      · have hflen := filter_length_updateFirst
          (p := fun v : UserRec => decide (v.email = p.email))
          (q := fun v : UserRec => decide (v.email = p.email))
          (f := fun v : UserRec =>
            { v with first_name := some p.first_name,
                     last_name := some p.last_name,
                     auth_provider := some "google" })
          (fun a => rfl) db.users
        rw [husers1, hflen]
        have hpos : 0 < (db.users.filter
            (fun v => decide (v.email = p.email))).length := by
          have hin : u ∈ db.users.filter (fun v => decide (v.email = p.email)) :=
            List.mem_filter.mpr ⟨hmem, by simp [hpu]⟩
          exact List.length_pos.mpr (List.ne_nil_of_mem hin)
        omega
      · intro u' hu'
        obtain rfl := Option.some.inj hu'
        exact hfind1
      · intro v hv hne
        rw [husers1]
        exact mem_updateFirst_of_neg hv (by simp [hne])

/-- Witness for **C7**: a store with one `b@x.com` user; reconciling the
same profile twice yields the same id and a single record for that
email. -/
theorem google_reconcile_idempotent_witness :
    (google_reconcile
        (google_reconcile
          { users := [{ uid := 0, email := "b@x.com",
                        password := hash_password "pw",
                        mobile_number := some "123" }], nextId := 1 }
          { email := "b@x.com", first_name := "B", last_name := "C" }
          (hash_password "111111")).2
        { email := "b@x.com", first_name := "B", last_name := "C" }
        (hash_password "222222")).1 =
      (google_reconcile
        { users := [{ uid := 0, email := "b@x.com",
                      password := hash_password "pw",
                      mobile_number := some "123" }], nextId := 1 }
        { email := "b@x.com", first_name := "B", last_name := "C" }
        (hash_password "111111")).1
    ∧ (((google_reconcile
          { users := [{ uid := 0, email := "b@x.com",
                        password := hash_password "pw",
                        mobile_number := some "123" }], nextId := 1 }
          { email := "b@x.com", first_name := "B", last_name := "C" }
          (hash_password "111111")).2).users.filter
          (fun v => decide (v.email = "b@x.com"))).length = 1 :=
  ⟨(google_reconcile_idempotent
      { users := [{ uid := 0, email := "b@x.com",
                    password := hash_password "pw",
                    mobile_number := some "123" }], nextId := 1 }
      { email := "b@x.com", first_name := "B", last_name := "C" }
      (hash_password "111111") (hash_password "222222") (by decide)).1,
   (google_reconcile_idempotent
      { users := [{ uid := 0, email := "b@x.com",
                    password := hash_password "pw",
                    mobile_number := some "123" }], nextId := 1 }
      { email := "b@x.com", first_name := "B", last_name := "C" }
      (hash_password "111111") (hash_password "222222") (by decide)).2.2.1⟩

/-- **C2** (amended): for the LinkedIn and Facebook callbacks, any
request carrying a provider-supplied `error` parameter fails at once with
the dedicated provider-denied error ("<Provider> OAuth error: ...")
before the session state lookup and before any token endpoint call — the
effect trace shows neither happened and store and session are untouched.
The Google callback, however, declares no `error` parameter: whenever a
code is present it proceeds to state verification regardless of the
error parameter (and without a code FastAPI rejects the request with a
parameter-validation error, not the provider-denied one). -/
theorem provider_error_short_circuit :
    ∀ (db : UsersDb) (session : Session) (now : Nat) (randPw : HashVal)
      (lw : LinkedInWorld) (fw : FacebookWorld) (gw : GoogleWorld)
      (q : CallbackQuery) (err : String),
      q.error = some err →
      ((linkedin_callback db session now randPw lw q).effects =
          { checkedState := false, calledTokenEndpoint := false }
        ∧ (linkedin_callback db session now randPw lw q).db = db
        ∧ (linkedin_callback db session now randPw lw q).session = session
        ∧ (∃ msg, (linkedin_callback db session now randPw lw q).response =
            .error (400, "LinkedIn OAuth error: " ++ msg)))
      ∧ ((facebook_callback db session randPw fw q).effects =
          { checkedState := false, calledTokenEndpoint := false }
        ∧ (facebook_callback db session randPw fw q).db = db
        ∧ (facebook_callback db session randPw fw q).session = session
        ∧ (∃ msg, (facebook_callback db session randPw fw q).response =
            .error (400, "Facebook OAuth error: " ++ msg)))
      ∧ (∀ c, q.code = some c →
          (auth_google_callback db session now randPw gw q).effects.checkedState =
            true) := by
  intro db session now randPw lw fw gw q err herr
  refine ⟨?_, ?_, ?_⟩
  · unfold linkedin_callback
    rw [herr]
    cases hd : q.error_description with
    | none => exact ⟨rfl, rfl, rfl, ⟨err, rfl⟩⟩
    | some d => exact ⟨rfl, rfl, rfl, ⟨err ++ " - " ++ d, rfl⟩⟩
  · unfold facebook_callback
    rw [herr]
    cases hd : q.error_description with
    | none => exact ⟨rfl, rfl, rfl, ⟨err, rfl⟩⟩
    | some d => exact ⟨rfl, rfl, rfl, ⟨err ++ " - " ++ d, rfl⟩⟩
  · intro c hc
    unfold auth_google_callback
    rw [hc]
    by_cases hs : session.google_oauth_state = none ∨
        session.google_oauth_state ≠ q.state
    · rw [if_pos hs]
    · rw [if_neg hs]
      cases hat : gw.access_token with
      | none => rfl
      | some tok =>
          by_cases he : gw.email = none
          · rw [if_pos he]
          · rw [if_neg he]

/-- Witness for **C2** (amended) at a concrete errored callback:
LinkedIn short-circuits with no state check and no exchange, while Google
with the same query reaches state verification. -/
theorem provider_error_short_circuit_witness :
    (linkedin_callback { users := [], nextId := 0 }
        { google_oauth_state := some "s", linkedin_oauth_state := some "s" }
        0 (hash_password "999999") {}
        { code := some "c", state := some "s", error := some "denied" }).effects =
      { checkedState := false, calledTokenEndpoint := false }
    ∧ (auth_google_callback { users := [], nextId := 0 }
        { google_oauth_state := some "s", linkedin_oauth_state := some "s" }
        0 (hash_password "999999") { access_token := none }
        { code := some "c", state := some "s",
          error := some "denied" }).effects.checkedState = true :=
  ⟨(provider_error_short_circuit { users := [], nextId := 0 }
      { google_oauth_state := some "s", linkedin_oauth_state := some "s" }
      0 (hash_password "999999") {} {} { access_token := none }
      { code := some "c", state := some "s", error := some "denied" }
      "denied" rfl).1.1,
   (provider_error_short_circuit { users := [], nextId := 0 }
      { google_oauth_state := some "s", linkedin_oauth_state := some "s" }
      0 (hash_password "999999") {} {} { access_token := none }
      { code := some "c", state := some "s", error := some "denied" }
      "denied" rfl).2.2 "c" rfl⟩

/-- **C4** (amended): the state is written at flow start
(`auth_google_start` stores it under the Google session key); a callback
presenting a missing or non-matching state is rejected with "Invalid
state parameter" before any token exchange; but the callback — on every
path, success included — leaves the stored state exactly as it was (it is
never consumed), so a repeat callback with the same state passes state
verification again; the state slot is cleared by logout (all three
provider slots). -/
theorem oauth_state_lifecycle :
    ∀ (db : UsersDb) (session : Session) (now : Nat) (randPw : HashVal)
      (gw : GoogleWorld) (q : CallbackQuery) (st : String),
      ((auth_google_start session st).google_oauth_state = some st)
      ∧ (∀ c, q.code = some c →
          session.google_oauth_state = none ∨
            session.google_oauth_state ≠ q.state →
          (auth_google_callback db session now randPw gw q).response =
            .error (400, "Invalid state parameter")
          ∧ (auth_google_callback db session now randPw gw
              q).effects.calledTokenEndpoint = false)
      ∧ ((auth_google_callback db session now randPw gw
            q).session.google_oauth_state = session.google_oauth_state)
      ∧ ((logout session).google_oauth_state = none
         ∧ (logout session).linkedin_oauth_state = none
         ∧ (logout session).facebook_oauth_state = none) := by
  intro db session now randPw gw q st
  refine ⟨rfl, ?_, ?_, ⟨rfl, rfl, rfl⟩⟩
  · intro c hc hcond
    unfold auth_google_callback
    rw [hc, if_pos hcond]
    exact ⟨rfl, rfl⟩
  · cases hq : q.code with
    | none => unfold auth_google_callback; rw [hq]
    | some c =>
        unfold auth_google_callback
        rw [hq]
        by_cases hs : session.google_oauth_state = none ∨
            session.google_oauth_state ≠ q.state
        · rw [if_pos hs]
        · rw [if_neg hs]
          cases hat : gw.access_token with
          | none => rfl
          | some tok =>
              by_cases he : gw.email = none
              · rw [if_pos he]
              · rw [if_neg he]

/-- Witness for **C4** (amended): stored state `"a"`, presented state
`"b"` — the callback is rejected with the invalid-state error. -/
theorem oauth_state_lifecycle_witness :
    (auth_google_callback { users := [], nextId := 0 }
        { google_oauth_state := some "a" } 0 (hash_password "1")
        { access_token := none }
        { code := some "c", state := some "b" }).response =
      .error (400, "Invalid state parameter") :=
  ((oauth_state_lifecycle { users := [], nextId := 0 }
      { google_oauth_state := some "a" } 0 (hash_password "1")
      { access_token := none }
      { code := some "c", state := some "b" } "zz").2.1
    "c" rfl (Or.inr (by decide))).1
